import Mathlib

/-!
Shallow embedding of the spotify-proxy Cloudflare Worker (src/src/types.d.ts,
worker module). The key-value store is an association list recording each
entry's value and the TTL it was written with; an expired entry is modelled
as absent (the store reports `none`), matching the worker's view of KV.
JavaScript string truthiness (`!!s`) is modelled by nonemptiness. Upstream
HTTP responses (the token endpoint and the Spotify data API) are inputs to
the handlers, since the worker treats them as opaque oracles. HTML page
bodies are abbreviated constants: the spec excludes the page markup as pure
presentation and no property inspects it.
-/

/-- One stored entry: the value and the expirationTtl it was written with. -/
structure StoreEntry where
  value : String
  ttl : Option Nat
deriving DecidableEq, Repr

/-- The KV namespace, as an association list keyed by string. -/
abbrev Store := List (String × StoreEntry)

/-- KVNamespace.get: the value at the first matching key, or none. -/
def kvGet (s : Store) (k : String) : Option String :=
  (s.find? (fun p => p.1 == k)).map (fun p => p.2.value)

/-- KVNamespace.put: overwrite the key with a fresh value and TTL. -/
def kvPut (s : Store) (k v : String) (ttl : Option Nat) : Store :=
  (k, ⟨v, ttl⟩) :: s.filter (fun p => p.1 != k)

/-- KVNamespace.delete: remove the key. -/
def kvDelete (s : Store) (k : String) : Store :=
  s.filter (fun p => p.1 != k)

/-- The TTL recorded for a key, when the key is present. -/
def kvTtl (s : Store) (k : String) : Option (Option Nat) :=
  (s.find? (fun p => p.1 == k)).map (fun p => p.2.ttl)

/-- JavaScript truthiness of a string: empty is falsy. -/
def strTruthy (s : String) : Bool := !(s == "")

/-- JavaScript truthiness of a nullable string (null and empty are falsy). -/
def optTruthy : Option String → Bool
  | none => false
  | some s => strTruthy s

/-- The worker environment bindings; an unset binding is the empty string. -/
structure Env where
  SPOTIFY_CLIENT_ID : String
  SPOTIFY_CLIENT_SECRET : String
  API_KEY : String
  ENVIRONMENT : String
deriving DecidableEq, Repr

/-- An inbound request: method, pathname, origin, query parameters and the
Authorization header (none when the header is absent). -/
structure Request where
  method : String
  path : String
  origin : String
  query : List (String × String)
  authHeader : Option String
deriving DecidableEq, Repr

/-- URL.searchParams.get: first value for the name, or none. -/
def getQueryParam (req : Request) (name : String) : Option String :=
  (req.query.find? (fun p => p.1 == name)).map (fun p => p.2)

/-- An outbound response: status, body, and the Location of a redirect. -/
structure Response where
  status : Nat
  body : String
  location : Option String
deriving DecidableEq, Repr

/-- Body of the 401 for a missing Authorization header. -/
def missingAuthBody : String :=
  "\x7b\"error\":\"Missing Authorization header. Include \x27Authorization: Bearer YOUR_API_KEY\x27 in your request.\"\x7d"

/-- Body of the 401 for a malformed Authorization header. -/
def badFormatBody : String :=
  "\x7b\"error\":\"Invalid Authorization header format. Use \x27Authorization: Bearer YOUR_API_KEY\x27.\"\x7d"

/-- Body of the 500 when no API key is configured. -/
def notConfiguredBody : String :=
  "\x7b\"error\":\"API key not configured. Please set up via Cloudflare dashboard.\"\x7d"

/-- Body of the 401 for a wrong API key. -/
def invalidKeyBody : String :=
  "\x7b\"error\":\"Invalid API key.\"\x7d"

/-- String.startsWith, computed on the character lists. -/
def strStartsWith (s pre : String) : Bool := pre.data.isPrefixOf s.data

/-- String.drop, computed on the character lists. -/
def strDrop (s : String) (n : Nat) : String := String.mk (s.data.drop n)

/-- requireApiKey: returns some error response when the gate blocks the
request, none when the request may proceed. -/
def requireApiKey (req : Request) (env : Env) : Option Response :=
  match req.authHeader with
  | none => some ⟨401, missingAuthBody, none⟩
  | some a =>
    if !(strStartsWith a "Bearer ") then
      some ⟨401, badFormatBody, none⟩
    else
      let providedApiKey := strDrop a 7
      if !(strTruthy env.API_KEY) then
        some ⟨500, notConfiguredBody, none⟩
      else if providedApiKey != env.API_KEY then
        some ⟨401, invalidKeyBody, none⟩
      else
        none

/-- Whether pat occurs as a contiguous substring of l. -/
def listContains : List Char → List Char → Bool
  | [], pat => pat.isPrefixOf []
  | a :: t, pat => pat.isPrefixOf (a :: t) || listContains t pat

/-- Whether a string occurs as a substring of another. -/
def strContains (s pat : String) : Bool := listContains s.data pat.data

/-- Response of the upstream token endpoint, as seen by the worker: whether
the HTTP status was 2xx, the statusText, and the (parsed) token payload. -/
structure UpstreamTokenResp where
  ok : Bool
  statusText : String
  data : String
deriving DecidableEq, Repr

/-- Outcome of exchangeCodeForTokens: whether the POST to the token endpoint
was actually issued, and the success/error result. -/
structure ExchangeOutcome where
  posted : Bool
  result : Except String String
deriving Repr

/-- exchangeCodeForTokens: refuse without credentials (no POST issued);
otherwise issue the POST and translate a non-2xx response into an error
carrying the upstream statusText, a 2xx response into the token payload. -/
def exchangeCodeForTokens (code : String) (callbackUrl : String) (env : Env)
    (up : UpstreamTokenResp) : ExchangeOutcome :=
  if !(strTruthy env.SPOTIFY_CLIENT_ID) || !(strTruthy env.SPOTIFY_CLIENT_SECRET) then
    ⟨false, Except.error "No Spotify credentials configured. Please complete setup first."⟩
  else if !up.ok then
    ⟨true, Except.error ("Token exchange failed: " ++ up.statusText)⟩
  else
    ⟨true, Except.ok up.data⟩

/-- Abbreviated OAuth-success page returned by a completed callback. -/
def callbackSuccessHTML : String :=
  "<html><head><title>OAuth Success</title></head><body><h1>OAuth Setup Complete!</h1><p>Your Spotify account has been successfully connected.</p></body></html>"

/-- Result of handling a callback: the response, the resulting store, and
whether the token-exchange POST was sent upstream. -/
structure CallbackResult where
  resp : Response
  store : Store
  posted : Bool
deriving DecidableEq, Repr

/-- handleCallback: error param short-circuit, code/state presence check,
state lookup, token exchange, token persistence and state cleanup. -/
def handleCallback (req : Request) (env : Env) (store : Store)
    (up : UpstreamTokenResp) : CallbackResult :=
  let errorQ := getQueryParam req "error"
  if optTruthy errorQ then
    ⟨⟨400, "OAuth Error: " ++ errorQ.getD "", none⟩, store, false⟩
  else
    let codeQ := getQueryParam req "code"
    let stateQ := getQueryParam req "state"
    if !(optTruthy codeQ) || !(optTruthy stateQ) then
      ⟨⟨400, "Missing authorization code or state", none⟩, store, false⟩
    else
      let state := stateQ.getD ""
      let storedState := kvGet store ("oauth_state_" ++ state)
      if !(optTruthy storedState) then
        ⟨⟨400, "Invalid or expired state parameter", none⟩, store, false⟩
      else
        let ex := exchangeCodeForTokens (codeQ.getD "") req.origin env up
        match ex.result with
        | Except.error e =>
          ⟨⟨400, "Token exchange failed: " ++ e, none⟩, store, ex.posted⟩
        | Except.ok d =>
          let s1 := kvPut store "spotify_tokens" d (some 3600)
          let s2 := kvDelete s1 ("oauth_state_" ++ state)
          ⟨⟨200, callbackSuccessHTML, none⟩, s2, ex.posted⟩

/-- The alphanumeric charset used for OAuth state values. -/
def stateCharset : String :=
  "ABCDEFGHIJKLMNOPQRSTUVWXYZabcdefghijklmnopqrstuvwxyz0123456789"

/-- generateRandomString: length draws from the 62-character alphanumeric
charset; the random floor(random()*62) draws are supplied as an oracle. -/
def generateRandomString (length : Nat) (draws : Nat → Nat) : String :=
  String.mk ((List.range length).map
    (fun i => stateCharset.data.getD (draws i % stateCharset.data.length) 'A'))

/-- The charset used for generated API keys (alphanumeric plus dash and
underscore). -/
def apiKeyCharset : String :=
  "ABCDEFGHIJKLMNOPQRSTUVWXYZabcdefghijklmnopqrstuvwxyz0123456789-_"

/-- generateSecureApiKey: 64 draws from the 64-character charset. -/
def generateSecureApiKey (draws : Nat → Nat) : String :=
  String.mk ((List.range 64).map
    (fun i => apiKeyCharset.data.getD (draws i % apiKeyCharset.data.length) 'A'))

/-- Hex digit for percent-encoding. -/
def hexDigit (n : Nat) : Char := "0123456789ABCDEF".data.getD n '0'

/-- Whether a byte is left unescaped by encodeURIComponent. -/
def uriUnreserved (b : UInt8) : Bool :=
  (65 ≤ b && b ≤ 90) || (97 ≤ b && b ≤ 122) || (48 ≤ b && b ≤ 57) ||
    b == 45 || b == 95 || b == 46 || b == 33 || b == 126 || b == 42 ||
    b == 39 || b == 40 || b == 41

/-- encodeURIComponent: percent-encode every UTF-8 byte outside the
unreserved set. -/
def encodeURIComponent (s : String) : String :=
  String.mk (s.toUTF8.toList.flatMap
    (fun b =>
      if uriUnreserved b then [Char.ofNat b.toNat]
      else ['%', hexDigit (b.toNat / 16), hexDigit (b.toNat % 16)]))

/-- The scope string requested during OAuth initiation. -/
def oauthScope : String :=
  "user-read-currently-playing user-read-recently-played user-read-playback-state"

/-- The authorization URL built by handleSetup from the client id, the
redirect URI and the state. -/
def spotifyAuthUrl (clientId redirectUri state : String) : String :=
  "https://accounts.spotify.com/authorize?" ++
    "response_type=code&" ++
    "client_id=" ++ clientId ++ "&" ++
    "scope=" ++ encodeURIComponent oauthScope ++ "&" ++
    "redirect_uri=" ++ encodeURIComponent redirectUri ++ "&" ++
    "state=" ++ state

/-- Abbreviated OAuth-initiation page served by GET /setup. -/
def setupHTML : String :=
  "<html><head><title>Spotify Proxy Setup</title></head><body><h1>Spotify Proxy Setup</h1><form method=\"POST\"><button type=\"submit\">Connect Spotify Account</button></form></body></html>"

/-- handleSetup: redirect to /credentials without configured credentials;
on POST, store a fresh state under oauth_state_<state> with TTL 600 and
redirect (302) to the authorization URL; on other methods serve the page. -/
def handleSetup (req : Request) (env : Env) (store : Store)
    (draws : Nat → Nat) : Response × Store :=
  if !(strTruthy env.SPOTIFY_CLIENT_ID && strTruthy env.SPOTIFY_CLIENT_SECRET) then
    (⟨302, "", some (req.origin ++ "/credentials")⟩, store)
  else if req.method == "POST" then
    let redirectUri := req.origin ++ "/callback"
    let state := generateRandomString 16 draws
    let store2 := kvPut store ("oauth_state_" ++ state) "pending" (some 600)
    (⟨302, "", some (spotifyAuthUrl env.SPOTIFY_CLIENT_ID redirectUri state)⟩, store2)
  else
    (⟨200, setupHTML, none⟩, store)

/-- Abbreviated credential-configuration page: depends on the request origin
(shown callback URL) and the freshly generated API key. -/
def getCredentialsHTML (origin apiKey : String) : String :=
  "<html><head><title>Spotify Proxy - Setup</title></head><body><h1>Spotify Proxy Setup</h1><div id=\"apiKey\">" ++ apiKey ++ "</div><p>Add this callback URL: " ++ origin ++ "/callback</p></body></html>"

/-- handleCredentials: serve the credential-configuration page. -/
def handleCredentials (req : Request) (draws : Nat → Nat) : Response :=
  ⟨200, getCredentialsHTML req.origin (generateSecureApiKey draws), none⟩

/-- Response of a Spotify data-API call: HTTP status and body. -/
structure SpotifyApiResp where
  status : Nat
  body : String
deriving DecidableEq, Repr

/-- Response.ok of the fetch API: status in the 2xx range. -/
def respOk (r : SpotifyApiResp) : Bool := 200 ≤ r.status && r.status ≤ 299

/-- getStoredTokens: the serialized token record, none when the key is
absent or holds a falsy (empty) string. -/
def getStoredTokens (store : Store) : Option String :=
  match kvGet store "spotify_tokens" with
  | none => none
  | some s => if strTruthy s then some s else none

/-- Body of the 401 served by data endpoints when no token record exists. -/
def noTokensBody : String :=
  "\x7b\"error\":\"No valid tokens found. Please complete OAuth setup first.\"\x7d"

/-- Body served by /now-playing on an upstream 204. -/
def playingFalseBody : String :=
  "\x7b\"playing\":false,\"message\":\"No track currently playing\"\x7d"

/-- Body served by /now-playing on an upstream error. -/
def nowPlayingFailBody : String :=
  "\x7b\"error\":\"Failed to fetch current track\"\x7d"

/-- Body served by /recent on an upstream error. -/
def recentFailBody : String :=
  "\x7b\"error\":\"Failed to fetch recent tracks\"\x7d"

/-- handleNowPlaying: 401 without a token record; 200 playing:false on an
upstream 204; relay upstream errors; otherwise relay the payload. -/
def handleNowPlaying (store : Store) (up : SpotifyApiResp) : Response :=
  match getStoredTokens store with
  | none => ⟨401, noTokensBody, none⟩
  | some _ =>
    if up.status == 204 then ⟨200, playingFalseBody, none⟩
    else if !(respOk up) then ⟨up.status, nowPlayingFailBody, none⟩
    else ⟨200, up.body, none⟩

/-- handleRecent: 401 without a token record; relay upstream errors;
otherwise relay the payload. -/
def handleRecent (store : Store) (up : SpotifyApiResp) : Response :=
  match getStoredTokens store with
  | none => ⟨401, noTokensBody, none⟩
  | some _ =>
    if !(respOk up) then ⟨up.status, recentFailBody, none⟩
    else ⟨200, up.body, none⟩

/-- Render a Bool the way JSON.stringify does. -/
def jsonBool : Bool → String
  | true => "true"
  | false => "false"

/-- handleHealth: report configuration flags; no secret values appear. -/
def handleHealth (env : Env) (store : Store) (now : String) : Response :=
  let hasValidCredentials :=
    strTruthy env.SPOTIFY_CLIENT_ID && strTruthy env.SPOTIFY_CLIENT_SECRET
  let hasValidTokens := (getStoredTokens store).isSome
  let hasApiKey := strTruthy env.API_KEY
  let environment := if strTruthy env.ENVIRONMENT then env.ENVIRONMENT else "unknown"
  let nextStep :=
    if !hasApiKey then "Configure secrets (API key + Spotify credentials) at /credentials"
    else if !hasValidCredentials then "Configure Spotify credentials at /credentials"
    else if !hasValidTokens then "Complete OAuth setup at /setup"
    else "Ready to use API endpoints"
  let body :=
    "\x7b\"status\":\"healthy\",\"timestamp\":\"" ++ now ++
      "\",\"environment\":\"" ++ environment ++
      "\",\"api_key_configured\":" ++ jsonBool hasApiKey ++
      ",\"credentials_configured\":" ++ jsonBool hasValidCredentials ++
      ",\"oauth_configured\":" ++ jsonBool hasValidTokens ++
      ",\"setup_complete\":" ++ jsonBool (hasApiKey && hasValidCredentials && hasValidTokens) ++
      ",\"next_step\":\"" ++ nextStep ++ "\"\x7d"
  ⟨200, body, none⟩

/-- Abbreviated status dashboard served by GET / once configured. -/
def rootHTML (setupStatus : String) : String :=
  "<html><head><title>Spotify Proxy</title></head><body><h1>Spotify Proxy</h1><p>Status: " ++ setupStatus ++ "</p></body></html>"

/-- handleRoot: redirect to /credentials while unconfigured, otherwise serve
the dashboard whose status is derived from the stored token record. -/
def handleRoot (req : Request) (env : Env) (store : Store) : Response :=
  let hasApiKey := strTruthy env.API_KEY
  let hasSpotifyCredentials :=
    strTruthy env.SPOTIFY_CLIENT_ID && strTruthy env.SPOTIFY_CLIENT_SECRET
  if !hasApiKey || !hasSpotifyCredentials then
    ⟨302, "", some (req.origin ++ "/credentials")⟩
  else
    let setupStatus :=
      if (getStoredTokens store).isSome then "complete" else "credentials_only"
    ⟨200, rootHTML setupStatus, none⟩

/-- Side inputs of one request handling: the clock reading, the random
draws consumed by /setup and /credentials, and the two upstream responses. -/
structure FetchCtx where
  now : String
  setupDraws : Nat → Nat
  credDraws : Nat → Nat
  upstreamToken : UpstreamTokenResp
  upstreamApi : SpotifyApiResp

/-- Observable outcome of one request handling: the response, the resulting
store, whether the auth gate ran, and whether the token POST was sent. -/
structure FetchOutcome where
  resp : Response
  store : Store
  authChecked : Bool
  posted : Bool
deriving DecidableEq, Repr

/-- The fixed allow-list of paths served without the auth gate. -/
def publicEndpoints : List String := ["/health", "/credentials", "/setup", "/callback"]

/-- Route dispatch after the gate: the worker switch over pathname. -/
def route (req : Request) (env : Env) (store : Store) (ctx : FetchCtx)
    (checked : Bool) : FetchOutcome :=
  if req.path == "/" then
    ⟨handleRoot req env store, store, checked, false⟩
  else if req.path == "/setup" then
    let rs := handleSetup req env store ctx.setupDraws
    ⟨rs.1, rs.2, checked, false⟩
  else if req.path == "/credentials" then
    ⟨handleCredentials req ctx.credDraws, store, checked, false⟩
  else if req.path == "/callback" then
    let c := handleCallback req env store ctx.upstreamToken
    ⟨c.resp, c.store, checked, c.posted⟩
  else if req.path == "/now-playing" then
    ⟨handleNowPlaying store ctx.upstreamApi, store, checked, false⟩
  else if req.path == "/recent" then
    ⟨handleRecent store ctx.upstreamApi, store, checked, false⟩
  else if req.path == "/health" then
    ⟨handleHealth env store ctx.now, store, checked, false⟩
  else
    ⟨⟨404, "Not Found", none⟩, store, checked, false⟩

/-- The worker fetch entry point: OPTIONS preflight short-circuit, the auth
gate for paths outside the allow-list, then route dispatch. -/
def workerFetch (req : Request) (env : Env) (store : Store) (ctx : FetchCtx) :
    FetchOutcome :=
  if req.method == "OPTIONS" then
    ⟨⟨200, "", none⟩, store, false, false⟩
  else if !(publicEndpoints.contains req.path) then
    match requireApiKey req env with
    | some r => ⟨r, store, true, false⟩
    | none => route req env store ctx true
  else
    route req env store ctx false

/-- A request that does not authenticate against the configured key: no
Authorization header, a header without the Bearer prefix, or a header whose
part after the 7-character prefix differs from the key. -/
def unauthorizedHeader (req : Request) (env : Env) : Prop :=
  match req.authHeader with
  | none => True
  | some a => strStartsWith a "Bearer " = false ∨ ¬ strDrop a 7 = env.API_KEY

/-- Reading back the key just written returns the new value. -/
theorem kvGet_put_same (st : Store) (k v : String) (t : Option Nat) :
    kvGet (kvPut st k v t) k = some v := by
  simp [kvGet, kvPut]

/-- The TTL of the key just written is the one supplied. -/
theorem kvTtl_put_same (st : Store) (k v : String) (t : Option Nat) :
    kvTtl (kvPut st k v t) k = some t := by
  simp [kvTtl, kvPut]

/-- A deleted key reads back as absent. -/
theorem kvGet_delete_same (st : Store) (k : String) :
    kvGet (kvDelete st k) k = none := by
  induction st with
  | nil => rfl
  | cons p t ih =>
    by_cases hp : p.1 = k
    · have h1 : (p.1 != k) = false := by simp [hp]
      simpa [kvDelete, kvGet, List.filter_cons, h1] using ih
    · have h1 : (p.1 != k) = true := by simp [hp]
      have h2 : (p.1 == k) = false := by simp [hp]
      simpa [kvDelete, kvGet, List.filter_cons, h1, h2] using ih

/-- Deleting one key leaves reads of a different key unchanged. -/
theorem kvGet_delete_ne (st : Store) (k q : String) (h : ¬ k = q) :
    kvGet (kvDelete st q) k = kvGet st k := by
  induction st with
  | nil => rfl
  | cons p t ih =>
    have ih2 : kvGet (List.filter (fun p => p.1 != q) t) k = kvGet t k := by
      simpa [kvDelete] using ih
    by_cases hp : p.1 = k
    · have h1 : (p.1 != q) = true := by simp [hp, h]
      have h2 : (p.1 == k) = true := by simp [hp]
      simp [kvDelete, kvGet, List.filter_cons, h1, h2]
    · have h2 : (p.1 == k) = false := by simp [hp]
      by_cases hq : p.1 = q
      · have h1 : (p.1 != q) = false := by simp [hq]
        simpa [kvDelete, kvGet, List.filter_cons, h1, h2] using ih2
      · have h1 : (p.1 != q) = true := by simp [hq]
        simpa [kvDelete, kvGet, List.filter_cons, h1, h2] using ih2

/-- Deleting one key leaves the TTL of a different key unchanged. -/
theorem kvTtl_delete_ne (st : Store) (k q : String) (h : ¬ k = q) :
    kvTtl (kvDelete st q) k = kvTtl st k := by
  induction st with
  | nil => rfl
  | cons p t ih =>
    have ih2 : kvTtl (List.filter (fun p => p.1 != q) t) k = kvTtl t k := by
      simpa [kvDelete] using ih
    by_cases hp : p.1 = k
    · have h1 : (p.1 != q) = true := by simp [hp, h]
      have h2 : (p.1 == k) = true := by simp [hp]
      simp [kvDelete, kvTtl, List.filter_cons, h1, h2]
    · have h2 : (p.1 == k) = false := by simp [hp]
      by_cases hq : p.1 = q
      · have h1 : (p.1 != q) = false := by simp [hq]
        simpa [kvDelete, kvTtl, List.filter_cons, h1, h2] using ih2
      · have h1 : (p.1 != q) = true := by simp [hq]
        simpa [kvDelete, kvTtl, List.filter_cons, h1, h2] using ih2

/-- After a put, exactly one entry carries the written key. -/
theorem countP_put (st : Store) (k v : String) (t : Option Nat) :
    List.countP (fun p => p.1 == k) (kvPut st k v t) = 1 := by
  simp only [kvPut, List.countP_cons]
  have h0 : List.countP (fun p => p.1 == k)
      (st.filter (fun p => p.1 != k)) = 0 := by
    rw [List.countP_eq_zero]
    intro a ha
    have := (List.mem_filter.mp ha).2
    simp_all
  simp [h0]

/-- Deleting one key does not change the count of a different key. -/
theorem countP_delete_ne (st : Store) (k q : String) (h : ¬ k = q) :
    List.countP (fun p => p.1 == k) (kvDelete st q) =
      List.countP (fun p => p.1 == k) st := by
  induction st with
  | nil => rfl
  | cons p t ih =>
    have ih2 : List.countP (fun p => p.1 == k) (List.filter (fun p => p.1 != q) t) =
        List.countP (fun p => p.1 == k) t := by
      simpa [kvDelete] using ih
    by_cases hp : p.1 = k
    · have h1 : (p.1 != q) = true := by simp [hp, h]
      have h2 : (p.1 == k) = true := by simp [hp]
      simp [kvDelete, List.filter_cons, h1, List.countP_cons, h2, ih2]
    · have h2 : (p.1 == k) = false := by simp [hp]
      by_cases hq : p.1 = q
      · have h1 : (p.1 != q) = false := by simp [hq]
        simp [kvDelete, List.filter_cons, h1, List.countP_cons, h2, ih2]
      · have h1 : (p.1 != q) = true := by simp [hq]
        simp [kvDelete, List.filter_cons, h1, List.countP_cons, h2, ih2]

/-- A state key never collides with the fixed token-record key. -/
theorem oauth_key_ne_tokens (s : String) :
    ¬ ("oauth_state_" ++ s) = "spotify_tokens" := by
  intro h
  have h2 : ("oauth_state_" ++ s).data.head? = some 'o' := rfl
  rw [h] at h2
  have h3 : ("spotify_tokens" : String).data.head? = some 's' := rfl
  rw [h3] at h2
  exact absurd (Option.some.inj h2) (by decide)

/-- Routing bridge: a GET of /callback is public and dispatches to
handleCallback with no auth check. -/
theorem workerFetch_callback (req : Request) (env : Env) (store : Store)
    (ctx : FetchCtx) (hm : req.method = "GET") (hp : req.path = "/callback") :
    workerFetch req env store ctx =
      ⟨(handleCallback req env store ctx.upstreamToken).resp,
        (handleCallback req env store ctx.upstreamToken).store, false,
        (handleCallback req env store ctx.upstreamToken).posted⟩ := by
  simp [workerFetch, route, publicEndpoints, hm, hp]

/-- Callback with no matching state entry: 400, no store change, no POST. -/
theorem handleCallback_unknown_state (req : Request) (env : Env) (store : Store)
    (up : UpstreamTokenResp)
    (habs : ∀ s, getQueryParam req "state" = some s →
      kvGet store ("oauth_state_" ++ s) = none) :
    (handleCallback req env store up).resp.status = 400 ∧
    (handleCallback req env store up).store = store ∧
    (handleCallback req env store up).posted = false := by
  simp only [handleCallback]
  split
  · exact ⟨rfl, rfl, rfl⟩
  · split
    · exact ⟨rfl, rfl, rfl⟩
    · rename_i hpresent
      split
      · exact ⟨rfl, rfl, rfl⟩
      · rename_i hstored
        exfalso
        cases hq : getQueryParam req "state" with
        | none =>
          apply hpresent
          simp [hq, optTruthy]
        | some s =>
          apply hstored
          have hk := habs s hq
          simp [hq, hk, optTruthy]

/-- A callback with valid state and a 2xx exchange produces the success
response and performs exactly the token put followed by the state delete. -/
theorem handleCallback_success (req : Request) (env : Env) (store : Store)
    (up : UpstreamTokenResp) (c s v : String)
    (herr : optTruthy (getQueryParam req "error") = false)
    (hcode : getQueryParam req "code" = some c) (hc : ¬ c = "")
    (hstate : getQueryParam req "state" = some s) (hs : ¬ s = "")
    (hstored : kvGet store ("oauth_state_" ++ s) = some v) (hv : ¬ v = "")
    (hcid : ¬ env.SPOTIFY_CLIENT_ID = "") (hsec : ¬ env.SPOTIFY_CLIENT_SECRET = "")
    (hok : up.ok = true) :
    handleCallback req env store up =
      ⟨⟨200, callbackSuccessHTML, none⟩,
        kvDelete (kvPut store "spotify_tokens" up.data (some 3600))
          ("oauth_state_" ++ s), true⟩ := by
  simp only [optTruthy, strTruthy] at herr
  simp [handleCallback, exchangeCodeForTokens, herr, hcode, hstate, hstored, hok,
    optTruthy, strTruthy, hc, hs, hv, hcid, hsec]

/-- A list is a prefix of itself under isPrefixOf. -/
theorem isPrefixOf_self (l : List Char) : l.isPrefixOf l = true := by
  rw [List.isPrefixOf_iff_prefix]

/-- A suffix occurs as a substring. -/
theorem listContains_append_self (l pat : List Char) :
    listContains (l ++ pat) pat = true := by
  induction l with
  | nil =>
    cases pat with
    | nil => rfl
    | cons b bs => simp [listContains, isPrefixOf_self]
  | cons a t ih => simp [listContains, ih]

/-- A string contains its own suffix. -/
theorem strContains_append_self (s t : String) : strContains (s ++ t) t = true := by
  have h : (s ++ t).data = s.data ++ t.data := rfl
  simp only [strContains, h]
  exact listContains_append_self s.data t.data

/-- A callback with valid state whose exchange is refused upstream leaves
the store untouched and surfaces the statusText in a 400. -/
theorem handleCallback_exchange_failure (req : Request) (env : Env)
    (store : Store) (up : UpstreamTokenResp) (c s v : String)
    (herr : optTruthy (getQueryParam req "error") = false)
    (hcode : getQueryParam req "code" = some c) (hc : ¬ c = "")
    (hstate : getQueryParam req "state" = some s) (hs : ¬ s = "")
    (hstored : kvGet store ("oauth_state_" ++ s) = some v) (hv : ¬ v = "")
    (hcid : ¬ env.SPOTIFY_CLIENT_ID = "") (hsec : ¬ env.SPOTIFY_CLIENT_SECRET = "")
    (hfail : up.ok = false) :
    handleCallback req env store up =
      ⟨⟨400, "Token exchange failed: " ++
          ("Token exchange failed: " ++ up.statusText), none⟩, store, true⟩ := by
  simp only [optTruthy, strTruthy] at herr
  simp [handleCallback, exchangeCodeForTokens, herr, hcode, hstate, hstored, hfail,
    optTruthy, strTruthy, hc, hs, hv, hcid, hsec]

/-- C1: every GET /callback whose state parameter matches no currently
stored oauth_state_<state> key responds 400, never performs the
token-exchange POST, and neither writes nor deletes any store entry. -/
theorem c1_callback_unknown_state_rejected (req : Request) (env : Env)
    (store : Store) (ctx : FetchCtx) (hm : req.method = "GET")
    (hp : req.path = "/callback")
    (habs : ∀ s, getQueryParam req "state" = some s →
      kvGet store ("oauth_state_" ++ s) = none) :
    (workerFetch req env store ctx).resp.status = 400 ∧
    (workerFetch req env store ctx).store = store ∧
    (workerFetch req env store ctx).posted = false := by
  rw [workerFetch_callback req env store ctx hm hp]
  exact handleCallback_unknown_state req env store ctx.upstreamToken habs

/-- Witness for C1 at a concrete unknown-state request over an empty store. -/
theorem c1_callback_unknown_state_rejected_witness :
    (workerFetch
        ⟨"GET", "/callback", "https://w.example",
          [("code", "abc"), ("state", "xyz")], none⟩
        ⟨"cid", "secret", "k", "production"⟩ []
        ⟨"2026-01-01", fun _ => 0, fun _ => 0,
          ⟨true, "OK", "TOK"⟩, ⟨200, "B"⟩⟩).resp.status = 400 ∧
    (workerFetch
        ⟨"GET", "/callback", "https://w.example",
          [("code", "abc"), ("state", "xyz")], none⟩
        ⟨"cid", "secret", "k", "production"⟩ []
        ⟨"2026-01-01", fun _ => 0, fun _ => 0,
          ⟨true, "OK", "TOK"⟩, ⟨200, "B"⟩⟩).store = [] ∧
    (workerFetch
        ⟨"GET", "/callback", "https://w.example",
          [("code", "abc"), ("state", "xyz")], none⟩
        ⟨"cid", "secret", "k", "production"⟩ []
        ⟨"2026-01-01", fun _ => 0, fun _ => 0,
          ⟨true, "OK", "TOK"⟩, ⟨200, "B"⟩⟩).posted = false := by
  exact c1_callback_unknown_state_rejected _ _ _ _ rfl rfl
    (fun s hs => by
      have h2 : s = "xyz" := by
        have h3 : (some "xyz" : Option String) = some s := hs
        exact (Option.some.inj h3).symm
      subst h2
      rfl)

/-- C2: a GET /callback with truthy code and state, a matching stored
state entry, and a 2xx upstream exchange serves 200, stores the returned
payload verbatim under spotify_tokens with TTL 3600, deletes the consumed
state key, and leaves exactly one token record; the whole store effect is
that put followed by that delete. -/
theorem c2_callback_success_persists_tokens (req : Request) (env : Env)
    (store : Store) (ctx : FetchCtx) (c s v : String)
    (hm : req.method = "GET") (hp : req.path = "/callback")
    (herr : optTruthy (getQueryParam req "error") = false)
    (hcode : getQueryParam req "code" = some c) (hc : ¬ c = "")
    (hstate : getQueryParam req "state" = some s) (hs : ¬ s = "")
    (hstored : kvGet store ("oauth_state_" ++ s) = some v) (hv : ¬ v = "")
    (hcid : ¬ env.SPOTIFY_CLIENT_ID = "") (hsec : ¬ env.SPOTIFY_CLIENT_SECRET = "")
    (hok : ctx.upstreamToken.ok = true) :
    (workerFetch req env store ctx).resp.status = 200 ∧
    (workerFetch req env store ctx).store =
      kvDelete (kvPut store "spotify_tokens" ctx.upstreamToken.data (some 3600))
        ("oauth_state_" ++ s) ∧
    kvGet (workerFetch req env store ctx).store "spotify_tokens" =
      some ctx.upstreamToken.data ∧
    kvTtl (workerFetch req env store ctx).store "spotify_tokens" =
      some (some 3600) ∧
    List.countP (fun p => p.1 == "spotify_tokens")
      (workerFetch req env store ctx).store = 1 ∧
    kvGet (workerFetch req env store ctx).store ("oauth_state_" ++ s) = none := by
  have hne : ¬ ("spotify_tokens" : String) = "oauth_state_" ++ s :=
    fun he => oauth_key_ne_tokens s he.symm
  have hc2 := handleCallback_success req env store ctx.upstreamToken c s v herr
    hcode hc hstate hs hstored hv hcid hsec hok
  rw [workerFetch_callback req env store ctx hm hp]
  simp only [hc2]
  refine ⟨trivial, trivial, ?_, ?_, ?_, ?_⟩
  · rw [kvGet_delete_ne _ _ _ hne, kvGet_put_same]
  · rw [kvTtl_delete_ne _ _ _ hne, kvTtl_put_same]
  · rw [countP_delete_ne _ _ _ hne, countP_put]
  · exact kvGet_delete_same _ _

/-- Witness for C2 at a concrete successful callback. -/
theorem c2_callback_success_persists_tokens_witness :
    (workerFetch
        ⟨"GET", "/callback", "https://w.example",
          [("code", "abc"), ("state", "xyz")], none⟩
        ⟨"cid", "secret", "k", "production"⟩
        [("oauth_state_xyz", ⟨"pending", some 600⟩)]
        ⟨"2026-01-01", fun _ => 0, fun _ => 0,
          ⟨true, "OK", "TOKENDATA"⟩, ⟨200, "B"⟩⟩).resp.status = 200 ∧
    (workerFetch
        ⟨"GET", "/callback", "https://w.example",
          [("code", "abc"), ("state", "xyz")], none⟩
        ⟨"cid", "secret", "k", "production"⟩
        [("oauth_state_xyz", ⟨"pending", some 600⟩)]
        ⟨"2026-01-01", fun _ => 0, fun _ => 0,
          ⟨true, "OK", "TOKENDATA"⟩, ⟨200, "B"⟩⟩).store =
      kvDelete
        (kvPut [("oauth_state_xyz", ⟨"pending", some 600⟩)] "spotify_tokens"
          "TOKENDATA" (some 3600)) ("oauth_state_" ++ "xyz") ∧
    kvGet (workerFetch
        ⟨"GET", "/callback", "https://w.example",
          [("code", "abc"), ("state", "xyz")], none⟩
        ⟨"cid", "secret", "k", "production"⟩
        [("oauth_state_xyz", ⟨"pending", some 600⟩)]
        ⟨"2026-01-01", fun _ => 0, fun _ => 0,
          ⟨true, "OK", "TOKENDATA"⟩, ⟨200, "B"⟩⟩).store "spotify_tokens" =
      some "TOKENDATA" ∧
    kvTtl (workerFetch
        ⟨"GET", "/callback", "https://w.example",
          [("code", "abc"), ("state", "xyz")], none⟩
        ⟨"cid", "secret", "k", "production"⟩
        [("oauth_state_xyz", ⟨"pending", some 600⟩)]
        ⟨"2026-01-01", fun _ => 0, fun _ => 0,
          ⟨true, "OK", "TOKENDATA"⟩, ⟨200, "B"⟩⟩).store "spotify_tokens" =
      some (some 3600) ∧
    List.countP (fun p => p.1 == "spotify_tokens")
      (workerFetch
        ⟨"GET", "/callback", "https://w.example",
          [("code", "abc"), ("state", "xyz")], none⟩
        ⟨"cid", "secret", "k", "production"⟩
        [("oauth_state_xyz", ⟨"pending", some 600⟩)]
        ⟨"2026-01-01", fun _ => 0, fun _ => 0,
          ⟨true, "OK", "TOKENDATA"⟩, ⟨200, "B"⟩⟩).store = 1 ∧
    kvGet (workerFetch
        ⟨"GET", "/callback", "https://w.example",
          [("code", "abc"), ("state", "xyz")], none⟩
        ⟨"cid", "secret", "k", "production"⟩
        [("oauth_state_xyz", ⟨"pending", some 600⟩)]
        ⟨"2026-01-01", fun _ => 0, fun _ => 0,
          ⟨true, "OK", "TOKENDATA"⟩, ⟨200, "B"⟩⟩).store
      ("oauth_state_" ++ "xyz") = none := by
  exact c2_callback_success_persists_tokens _ _ _ _ "abc" "xyz" "pending"
    rfl rfl rfl rfl (by decide) rfl (by decide) rfl (by decide)
    (by decide) (by decide) rfl

/-- C3: a GET /callback with truthy code and state and a matching stored
state entry whose exchange gets a non-2xx upstream response serves 400
with a body containing the upstream statusText, writes no token record,
and deletes nothing: the store is exactly unchanged. -/
theorem c3_callback_exchange_failure_no_write (req : Request) (env : Env)
    (store : Store) (ctx : FetchCtx) (c s v : String)
    (hm : req.method = "GET") (hp : req.path = "/callback")
    (herr : optTruthy (getQueryParam req "error") = false)
    (hcode : getQueryParam req "code" = some c) (hc : ¬ c = "")
    (hstate : getQueryParam req "state" = some s) (hs : ¬ s = "")
    (hstored : kvGet store ("oauth_state_" ++ s) = some v) (hv : ¬ v = "")
    (hcid : ¬ env.SPOTIFY_CLIENT_ID = "") (hsec : ¬ env.SPOTIFY_CLIENT_SECRET = "")
    (hfail : ctx.upstreamToken.ok = false) :
    (workerFetch req env store ctx).resp.status = 400 ∧
    (workerFetch req env store ctx).resp.body =
      "Token exchange failed: " ++
        ("Token exchange failed: " ++ ctx.upstreamToken.statusText) ∧
    strContains (workerFetch req env store ctx).resp.body
      ctx.upstreamToken.statusText = true ∧
    (workerFetch req env store ctx).store = store := by
  have hc3 := handleCallback_exchange_failure req env store ctx.upstreamToken
    c s v herr hcode hc hstate hs hstored hv hcid hsec hfail
  rw [workerFetch_callback req env store ctx hm hp]
  simp only [hc3]
  refine ⟨trivial, trivial, ?_, trivial⟩
  have h2 : "Token exchange failed: " ++
      ("Token exchange failed: " ++ ctx.upstreamToken.statusText) =
      ("Token exchange failed: " ++ "Token exchange failed: ") ++
        ctx.upstreamToken.statusText := by
    rw [String.append_assoc]
  rw [h2]
  exact strContains_append_self _ _

/-- Witness for C3 at a concrete rejected exchange. -/
theorem c3_callback_exchange_failure_no_write_witness :
    (workerFetch
        ⟨"GET", "/callback", "https://w.example",
          [("code", "abc"), ("state", "xyz")], none⟩
        ⟨"cid", "secret", "k", "production"⟩
        [("oauth_state_xyz", ⟨"pending", some 600⟩)]
        ⟨"2026-01-01", fun _ => 0, fun _ => 0,
          ⟨false, "Bad Request", ""⟩, ⟨200, "B"⟩⟩).resp.status = 400 ∧
    (workerFetch
        ⟨"GET", "/callback", "https://w.example",
          [("code", "abc"), ("state", "xyz")], none⟩
        ⟨"cid", "secret", "k", "production"⟩
        [("oauth_state_xyz", ⟨"pending", some 600⟩)]
        ⟨"2026-01-01", fun _ => 0, fun _ => 0,
          ⟨false, "Bad Request", ""⟩, ⟨200, "B"⟩⟩).resp.body =
      "Token exchange failed: " ++
        ("Token exchange failed: " ++ "Bad Request") ∧
    strContains (workerFetch
        ⟨"GET", "/callback", "https://w.example",
          [("code", "abc"), ("state", "xyz")], none⟩
        ⟨"cid", "secret", "k", "production"⟩
        [("oauth_state_xyz", ⟨"pending", some 600⟩)]
        ⟨"2026-01-01", fun _ => 0, fun _ => 0,
          ⟨false, "Bad Request", ""⟩, ⟨200, "B"⟩⟩).resp.body "Bad Request" = true ∧
    (workerFetch
        ⟨"GET", "/callback", "https://w.example",
          [("code", "abc"), ("state", "xyz")], none⟩
        ⟨"cid", "secret", "k", "production"⟩
        [("oauth_state_xyz", ⟨"pending", some 600⟩)]
        ⟨"2026-01-01", fun _ => 0, fun _ => 0,
          ⟨false, "Bad Request", ""⟩, ⟨200, "B"⟩⟩).store =
      [("oauth_state_xyz", ⟨"pending", some 600⟩)] := by
  exact c3_callback_exchange_failure_no_write _ _ _ _ "abc" "xyz" "pending"
    rfl rfl rfl rfl (by decide) rfl (by decide) rfl (by decide)
    (by decide) (by decide) rfl

/-- Counterexample for C4: a callback whose state matches the stored key
but whose exchange is refused upstream does NOT consume the state entry:
the same state value is still found by a later lookup. -/
theorem c4_counterexample_state_survives_failed_exchange :
    kvGet (workerFetch
        ⟨"GET", "/callback", "https://w.example",
          [("code", "abc"), ("state", "xyz")], none⟩
        ⟨"cid", "secret", "k", "production"⟩
        [("oauth_state_xyz", ⟨"pending", some 600⟩)]
        ⟨"2026-01-01", fun _ => 0, fun _ => 0,
          ⟨false, "Bad Request", ""⟩, ⟨200, "B"⟩⟩).store "oauth_state_xyz" =
      some "pending" := by
  decide

/-- C4 amended: a matching state entry is consumed exactly when the
callback reaches a successful token exchange: then it is deleted and a
later lookup no longer finds it; on a failed exchange it survives. -/
theorem c4_state_consumed_on_success (req : Request) (env : Env)
    (store : Store) (ctx : FetchCtx) (c s v : String)
    (hm : req.method = "GET") (hp : req.path = "/callback")
    (herr : optTruthy (getQueryParam req "error") = false)
    (hcode : getQueryParam req "code" = some c) (hc : ¬ c = "")
    (hstate : getQueryParam req "state" = some s) (hs : ¬ s = "")
    (hstored : kvGet store ("oauth_state_" ++ s) = some v) (hv : ¬ v = "")
    (hcid : ¬ env.SPOTIFY_CLIENT_ID = "") (hsec : ¬ env.SPOTIFY_CLIENT_SECRET = "")
    (hok : ctx.upstreamToken.ok = true) :
    kvGet (workerFetch req env store ctx).store ("oauth_state_" ++ s) = none := by
  have hc2 := handleCallback_success req env store ctx.upstreamToken c s v herr
    hcode hc hstate hs hstored hv hcid hsec hok
  rw [workerFetch_callback req env store ctx hm hp]
  simp only [hc2]
  exact kvGet_delete_same _ _

/-- Witness for the amended C4 at a concrete successful callback. -/
theorem c4_state_consumed_on_success_witness :
    kvGet (workerFetch
        ⟨"GET", "/callback", "https://w.example",
          [("code", "abc"), ("state", "xyz")], none⟩
        ⟨"cid", "secret", "k", "production"⟩
        [("oauth_state_xyz", ⟨"pending", some 600⟩)]
        ⟨"2026-01-01", fun _ => 0, fun _ => 0,
          ⟨true, "OK", "TOKENDATA"⟩, ⟨200, "B"⟩⟩).store
      ("oauth_state_" ++ "xyz") = none := by
  exact c4_state_consumed_on_success _ _ _ _ "abc" "xyz" "pending"
    rfl rfl rfl rfl (by decide) rfl (by decide) rfl (by decide)
    (by decide) (by decide) rfl

/-- An unauthorized request against a nonempty configured key is blocked by
the gate with a 401 carrying one of the three fixed messages. -/
theorem requireApiKey_unauthorized (req : Request) (env : Env)
    (hkey : ¬ env.API_KEY = "") (hun : unauthorizedHeader req env) :
    ∃ b, requireApiKey req env = some ⟨401, b, none⟩ ∧
      (b = missingAuthBody ∨ b = badFormatBody ∨ b = invalidKeyBody) := by
  unfold unauthorizedHeader at hun
  cases h : req.authHeader with
  | none =>
    refine ⟨missingAuthBody, ?_, Or.inl rfl⟩
    simp [requireApiKey, h]
  | some a =>
    rw [h] at hun
    cases hb : strStartsWith a "Bearer " with
    | false =>
      refine ⟨badFormatBody, ?_, Or.inr (Or.inl rfl)⟩
      simp [requireApiKey, h, hb]
    | true =>
      have hd : ¬ strDrop a 7 = env.API_KEY := by
        rcases hun with h1 | h2
        · rw [hb] at h1
          cases h1
        · exact h2
      refine ⟨invalidKeyBody, ?_, Or.inr (Or.inr rfl)⟩
      have ht : strTruthy env.API_KEY = true := by simp [strTruthy, hkey]
      simp [requireApiKey, h, hb, ht, hd]

/-- Counterexample for C5: the 401 bodies are fixed texts, so a configured
key that happens to be a substring of one of them (here the key "key"
inside "Invalid API key.") does appear in the 401 body. -/
theorem c5_counterexample_key_substring_of_message :
    (workerFetch
        ⟨"GET", "/now-playing", "https://w.example", [], some "Bearer zzz"⟩
        ⟨"cid", "secret", "key", "production"⟩ []
        ⟨"2026-01-01", fun _ => 0, fun _ => 0,
          ⟨true, "OK", "TOK"⟩, ⟨200, "B"⟩⟩).resp.status = 401 ∧
    strContains (workerFetch
        ⟨"GET", "/now-playing", "https://w.example", [], some "Bearer zzz"⟩
        ⟨"cid", "secret", "key", "production"⟩ []
        ⟨"2026-01-01", fun _ => 0, fun _ => 0,
          ⟨true, "OK", "TOK"⟩, ⟨200, "B"⟩⟩).resp.body "key" = true := by
  decide

/-- C5 amended: with a nonempty configured key, every request to a path
outside the allow-list whose Authorization header is missing, lacks the
Bearer prefix, or carries a non-matching key gets a 401 whose body is one
of three fixed messages that do not depend on the configured key (so the
key value itself is never leaked, though a key that is a substring of
those fixed texts trivially occurs in them); the store is untouched. -/
theorem c5_unauthorized_fixed_401 (req : Request) (env : Env) (store : Store)
    (ctx : FetchCtx) (hpub : publicEndpoints.contains req.path = false)
    (hm : ¬ req.method = "OPTIONS") (hkey : ¬ env.API_KEY = "")
    (hun : unauthorizedHeader req env) :
    (workerFetch req env store ctx).resp.status = 401 ∧
    ((workerFetch req env store ctx).resp.body = missingAuthBody ∨
      (workerFetch req env store ctx).resp.body = badFormatBody ∨
      (workerFetch req env store ctx).resp.body = invalidKeyBody) ∧
    (workerFetch req env store ctx).store = store := by
  obtain ⟨b, hsome, hb⟩ := requireApiKey_unauthorized req env hkey hun
  have hm2 : (req.method == "OPTIONS") = false := by simp [hm]
  have hpub2 : ¬ req.path ∈ publicEndpoints := by simpa using hpub
  have hw : workerFetch req env store ctx = ⟨⟨401, b, none⟩, store, true, false⟩ := by
    simp [workerFetch, hm2, hpub2, hsome]
  rw [hw]
  exact ⟨rfl, hb, rfl⟩

/-- Witness for the amended C5 at a concrete headerless request. -/
theorem c5_unauthorized_fixed_401_witness :
    (workerFetch ⟨"GET", "/now-playing", "https://w.example", [], none⟩
        ⟨"cid", "secret", "k", "production"⟩ []
        ⟨"2026-01-01", fun _ => 0, fun _ => 0,
          ⟨true, "OK", "TOK"⟩, ⟨200, "B"⟩⟩).resp.status = 401 ∧
    ((workerFetch ⟨"GET", "/now-playing", "https://w.example", [], none⟩
        ⟨"cid", "secret", "k", "production"⟩ []
        ⟨"2026-01-01", fun _ => 0, fun _ => 0,
          ⟨true, "OK", "TOK"⟩, ⟨200, "B"⟩⟩).resp.body = missingAuthBody ∨
      (workerFetch ⟨"GET", "/now-playing", "https://w.example", [], none⟩
        ⟨"cid", "secret", "k", "production"⟩ []
        ⟨"2026-01-01", fun _ => 0, fun _ => 0,
          ⟨true, "OK", "TOK"⟩, ⟨200, "B"⟩⟩).resp.body = badFormatBody ∨
      (workerFetch ⟨"GET", "/now-playing", "https://w.example", [], none⟩
        ⟨"cid", "secret", "k", "production"⟩ []
        ⟨"2026-01-01", fun _ => 0, fun _ => 0,
          ⟨true, "OK", "TOK"⟩, ⟨200, "B"⟩⟩).resp.body = invalidKeyBody) ∧
    (workerFetch ⟨"GET", "/now-playing", "https://w.example", [], none⟩
        ⟨"cid", "secret", "k", "production"⟩ []
        ⟨"2026-01-01", fun _ => 0, fun _ => 0,
          ⟨true, "OK", "TOK"⟩, ⟨200, "B"⟩⟩).store = [] := by
  exact c5_unauthorized_fixed_401 _ _ _ _ rfl (by decide) (by decide) trivial

/-- Counterexample for C6: with an empty configured key, a protected-path
request with NO Authorization header is answered 401 by the earlier header
check, not the claimed 500. -/
theorem c6_counterexample_header_check_precedes_config :
    (workerFetch ⟨"GET", "/now-playing", "https://w.example", [], none⟩
        ⟨"cid", "secret", "", "production"⟩ []
        ⟨"2026-01-01", fun _ => 0, fun _ => 0,
          ⟨true, "OK", "TOK"⟩, ⟨200, "B"⟩⟩).resp.status = 401 ∧
    ¬ (workerFetch ⟨"GET", "/now-playing", "https://w.example", [], none⟩
        ⟨"cid", "secret", "", "production"⟩ []
        ⟨"2026-01-01", fun _ => 0, fun _ => 0,
          ⟨true, "OK", "TOK"⟩, ⟨200, "B"⟩⟩).resp.status = 500 := by
  decide

/-- C6 amended: with an empty configured key, a protected-path request
whose Authorization header is present and carries the Bearer prefix gets
the 500 "not configured" response; the missing-header and wrong-format
checks fire first, with 401, before the key is consulted. -/
theorem c6_unconfigured_key_500 (req : Request) (env : Env) (store : Store)
    (ctx : FetchCtx) (a : String)
    (hpub : publicEndpoints.contains req.path = false)
    (hm : ¬ req.method = "OPTIONS") (hkey : env.API_KEY = "")
    (ha : req.authHeader = some a) (hb : strStartsWith a "Bearer " = true) :
    (workerFetch req env store ctx).resp.status = 500 ∧
    (workerFetch req env store ctx).resp.body = notConfiguredBody ∧
    (workerFetch req env store ctx).store = store := by
  have hm2 : (req.method == "OPTIONS") = false := by simp [hm]
  have ht : strTruthy env.API_KEY = false := by simp [strTruthy, hkey]
  have hpub2 : ¬ req.path ∈ publicEndpoints := by simpa using hpub
  have hw : workerFetch req env store ctx =
      ⟨⟨500, notConfiguredBody, none⟩, store, true, false⟩ := by
    simp [workerFetch, requireApiKey, hm2, hpub2, ha, hb, ht]
  rw [hw]
  exact ⟨rfl, rfl, rfl⟩

/-- Witness for the amended C6 at a concrete Bearer-carrying request. -/
theorem c6_unconfigured_key_500_witness :
    (workerFetch
        ⟨"GET", "/now-playing", "https://w.example", [], some "Bearer zzz"⟩
        ⟨"cid", "secret", "", "production"⟩ []
        ⟨"2026-01-01", fun _ => 0, fun _ => 0,
          ⟨true, "OK", "TOK"⟩, ⟨200, "B"⟩⟩).resp.status = 500 ∧
    (workerFetch
        ⟨"GET", "/now-playing", "https://w.example", [], some "Bearer zzz"⟩
        ⟨"cid", "secret", "", "production"⟩ []
        ⟨"2026-01-01", fun _ => 0, fun _ => 0,
          ⟨true, "OK", "TOK"⟩, ⟨200, "B"⟩⟩).resp.body = notConfiguredBody ∧
    (workerFetch
        ⟨"GET", "/now-playing", "https://w.example", [], some "Bearer zzz"⟩
        ⟨"cid", "secret", "", "production"⟩ []
        ⟨"2026-01-01", fun _ => 0, fun _ => 0,
          ⟨true, "OK", "TOK"⟩, ⟨200, "B"⟩⟩).store = [] := by
  exact c6_unconfigured_key_500 _ _ _ _ "Bearer zzz" rfl (by decide) rfl rfl
    (by decide)

/-- Every route dispatch reports exactly the auth-checked flag it was
given. -/
theorem route_authChecked (req : Request) (env : Env) (store : Store)
    (ctx : FetchCtx) (ch : Bool) :
    (route req env store ctx ch).authChecked = ch := by
  unfold route
  repeat first | rfl | split

/-- C7: for a non-OPTIONS request to one of the public allow-list paths,
the auth gate never runs and the response, resulting store and upstream
effects are identical for any two values of the Authorization header. -/
theorem c7_public_paths_ignore_auth (req : Request) (env : Env)
    (store : Store) (ctx : FetchCtx) (a1 a2 : Option String)
    (hpub : publicEndpoints.contains req.path = true)
    (hm : ¬ req.method = "OPTIONS") :
    workerFetch { req with authHeader := a1 } env store ctx =
      workerFetch { req with authHeader := a2 } env store ctx ∧
    (workerFetch { req with authHeader := a1 } env store ctx).authChecked
      = false := by
  have hm2 : (req.method == "OPTIONS") = false := by simp [hm]
  have hpub2 : req.path ∈ publicEndpoints := by simpa using hpub
  have h1 : workerFetch { req with authHeader := a1 } env store ctx =
      route { req with authHeader := a1 } env store ctx false := by
    simp [workerFetch, hm2, hpub2]
  have h2 : workerFetch { req with authHeader := a2 } env store ctx =
      route { req with authHeader := a2 } env store ctx false := by
    simp [workerFetch, hm2, hpub2]
  refine ⟨?_, ?_⟩
  · rw [h1, h2]
    rfl
  · rw [h1]
    exact route_authChecked _ _ _ _ _

/-- Witness for C7: two /health requests differing only in the header. -/
theorem c7_public_paths_ignore_auth_witness :
    workerFetch ⟨"GET", "/health", "https://w.example", [], some "Bearer bad"⟩
        ⟨"cid", "secret", "k", "production"⟩ []
        ⟨"2026-01-01", fun _ => 0, fun _ => 0,
          ⟨true, "OK", "TOK"⟩, ⟨200, "B"⟩⟩ =
      workerFetch ⟨"GET", "/health", "https://w.example", [], none⟩
        ⟨"cid", "secret", "k", "production"⟩ []
        ⟨"2026-01-01", fun _ => 0, fun _ => 0,
          ⟨true, "OK", "TOK"⟩, ⟨200, "B"⟩⟩ ∧
    (workerFetch ⟨"GET", "/health", "https://w.example", [], some "Bearer bad"⟩
        ⟨"cid", "secret", "k", "production"⟩ []
        ⟨"2026-01-01", fun _ => 0, fun _ => 0,
          ⟨true, "OK", "TOK"⟩, ⟨200, "B"⟩⟩).authChecked = false := by
  exact c7_public_paths_ignore_auth
    ⟨"GET", "/health", "https://w.example", [], none⟩ _ _ _
    (some "Bearer bad") none rfl (by decide)

/-- Any state-charset lookup lands inside the charset ('A' is its own
first element, covering the out-of-range default). -/
theorem stateCharset_getD_mem (n : Nat) :
    stateCharset.data.getD n 'A' ∈ stateCharset.data := by
  by_cases h : n < stateCharset.data.length
  · rw [List.getD_eq_getElem?_getD, List.getElem?_eq_getElem h]
    simpa using List.getElem_mem h
  · rw [List.getD_eq_getElem?_getD, List.getElem?_eq_none (by omega)]
    decide

/-- A generated state has exactly the requested length. -/
theorem generateRandomString_length (n : Nat) (d : Nat → Nat) :
    (generateRandomString n d).length = n := by
  have h : (generateRandomString n d).length =
      ((List.range n).map
        (fun i => stateCharset.data.getD (d i % stateCharset.data.length) 'A')).length :=
    rfl
  rw [h, List.length_map, List.length_range]

/-- Every character of a generated state is drawn from the charset. -/
theorem generateRandomString_mem (n : Nat) (d : Nat → Nat) :
    ∀ ch ∈ (generateRandomString n d).data, ch ∈ stateCharset.data := by
  intro ch hch
  simp only [generateRandomString] at hch
  obtain ⟨i, _, hEq⟩ := List.mem_map.mp hch
  rw [← hEq]
  exact stateCharset_getD_mem _

/-- C8: a POST /setup with configured credentials stores exactly one fresh
state entry oauth_state_<state> = "pending" with TTL 600 and responds 302
to the authorization URL carrying response_type=code, the client id, the
encoded scope set, the encoded redirect URI origin + /callback, and that
same state; the state is 16 alphanumeric characters, hence at least 16. -/
theorem c8_setup_post_initiates_oauth (req : Request) (env : Env)
    (store : Store) (ctx : FetchCtx)
    (hp : req.path = "/setup") (hm : req.method = "POST")
    (hcid : ¬ env.SPOTIFY_CLIENT_ID = "") (hsec : ¬ env.SPOTIFY_CLIENT_SECRET = "") :
    (workerFetch req env store ctx).resp.status = 302 ∧
    (workerFetch req env store ctx).resp.location =
      some (spotifyAuthUrl env.SPOTIFY_CLIENT_ID (req.origin ++ "/callback")
        (generateRandomString 16 ctx.setupDraws)) ∧
    (workerFetch req env store ctx).store =
      kvPut store ("oauth_state_" ++ generateRandomString 16 ctx.setupDraws)
        "pending" (some 600) ∧
    16 ≤ (generateRandomString 16 ctx.setupDraws).length ∧
    (∀ ch ∈ (generateRandomString 16 ctx.setupDraws).data,
      ch ∈ stateCharset.data) := by
  have hm2 : (req.method == "OPTIONS") = false := by simp [hm]
  have hm3 : (req.method == "POST") = true := by simp [hm]
  have hw : workerFetch req env store ctx =
      ⟨⟨302, "", some (spotifyAuthUrl env.SPOTIFY_CLIENT_ID
          (req.origin ++ "/callback") (generateRandomString 16 ctx.setupDraws))⟩,
        kvPut store ("oauth_state_" ++ generateRandomString 16 ctx.setupDraws)
          "pending" (some 600), false, false⟩ := by
    simp [workerFetch, route, handleSetup, hp, hm2, hm3, publicEndpoints,
      strTruthy, hcid, hsec]
  rw [hw]
  refine ⟨rfl, rfl, rfl, ?_, generateRandomString_mem 16 ctx.setupDraws⟩
  rw [generateRandomString_length]

/-- Witness for C8 at a concrete POST with the all-zero draw oracle. -/
theorem c8_setup_post_initiates_oauth_witness :
    (workerFetch ⟨"POST", "/setup", "https://w.example", [], none⟩
        ⟨"cid", "secret", "k", "production"⟩ []
        ⟨"2026-01-01", fun _ => 0, fun _ => 0,
          ⟨true, "OK", "TOK"⟩, ⟨200, "B"⟩⟩).resp.status = 302 ∧
    (workerFetch ⟨"POST", "/setup", "https://w.example", [], none⟩
        ⟨"cid", "secret", "k", "production"⟩ []
        ⟨"2026-01-01", fun _ => 0, fun _ => 0,
          ⟨true, "OK", "TOK"⟩, ⟨200, "B"⟩⟩).resp.location =
      some (spotifyAuthUrl "cid" ("https://w.example" ++ "/callback")
        (generateRandomString 16 (fun _ => 0))) ∧
    (workerFetch ⟨"POST", "/setup", "https://w.example", [], none⟩
        ⟨"cid", "secret", "k", "production"⟩ []
        ⟨"2026-01-01", fun _ => 0, fun _ => 0,
          ⟨true, "OK", "TOK"⟩, ⟨200, "B"⟩⟩).store =
      kvPut [] ("oauth_state_" ++ generateRandomString 16 (fun _ => 0))
        "pending" (some 600) ∧
    16 ≤ (generateRandomString 16 (fun _ => 0)).length ∧
    (∀ ch ∈ (generateRandomString 16 (fun _ => 0)).data,
      ch ∈ stateCharset.data) := by
  exact c8_setup_post_initiates_oauth _ _ _ _ rfl rfl (by decide) (by decide)

/-- C9: an authenticated GET /now-playing serves 401 with the
setup-incomplete message when no token record is stored, and serves 200
with the playing:false body when a record exists and the upstream data
call returns 204. -/
theorem c9_now_playing_token_gate (req : Request) (env : Env) (store : Store)
    (ctx : FetchCtx) (hm : req.method = "GET") (hp : req.path = "/now-playing")
    (hauth : requireApiKey req env = none) :
    (getStoredTokens store = none →
      (workerFetch req env store ctx).resp.status = 401 ∧
      (workerFetch req env store ctx).resp.body = noTokensBody) ∧
    (∀ t, getStoredTokens store = some t → ctx.upstreamApi.status = 204 →
      (workerFetch req env store ctx).resp.status = 200 ∧
      (workerFetch req env store ctx).resp.body = playingFalseBody) := by
  have hm2 : (req.method == "OPTIONS") = false := by simp [hm]
  have hpub2 : ¬ ("/now-playing" : String) ∈ publicEndpoints := by decide
  have hw : workerFetch req env store ctx =
      ⟨handleNowPlaying store ctx.upstreamApi, store, true, false⟩ := by
    simp [workerFetch, route, hm2, hpub2, hauth, hp]
  rw [hw]
  constructor
  · intro hn
    simp [handleNowPlaying, hn]
  · intro t ht h204
    simp [handleNowPlaying, ht, h204]

/-- Witness for C9: both branches at concrete stores. -/
theorem c9_now_playing_token_gate_witness :
    ((workerFetch ⟨"GET", "/now-playing", "https://w.example", [],
          some "Bearer k"⟩
        ⟨"cid", "secret", "k", "production"⟩ []
        ⟨"2026-01-01", fun _ => 0, fun _ => 0,
          ⟨true, "OK", "TOK"⟩, ⟨204, ""⟩⟩).resp.status = 401 ∧
      (workerFetch ⟨"GET", "/now-playing", "https://w.example", [],
          some "Bearer k"⟩
        ⟨"cid", "secret", "k", "production"⟩ []
        ⟨"2026-01-01", fun _ => 0, fun _ => 0,
          ⟨true, "OK", "TOK"⟩, ⟨204, ""⟩⟩).resp.body = noTokensBody) ∧
    ((workerFetch ⟨"GET", "/now-playing", "https://w.example", [],
          some "Bearer k"⟩
        ⟨"cid", "secret", "k", "production"⟩
        [("spotify_tokens", ⟨"TOK", some 3600⟩)]
        ⟨"2026-01-01", fun _ => 0, fun _ => 0,
          ⟨true, "OK", "TOK"⟩, ⟨204, ""⟩⟩).resp.status = 200 ∧
      (workerFetch ⟨"GET", "/now-playing", "https://w.example", [],
          some "Bearer k"⟩
        ⟨"cid", "secret", "k", "production"⟩
        [("spotify_tokens", ⟨"TOK", some 3600⟩)]
        ⟨"2026-01-01", fun _ => 0, fun _ => 0,
          ⟨true, "OK", "TOK"⟩, ⟨204, ""⟩⟩).resp.body = playingFalseBody) := by
  constructor
  · exact (c9_now_playing_token_gate _ _ _ _ rfl rfl (by decide)).1 rfl
  · exact (c9_now_playing_token_gate _ _ _ _ rfl rfl (by decide)).2 "TOK" rfl rfl

/-- C10: the callback never inspects the stored state value beyond its
truthiness: over any two stores holding (possibly different) non-empty
values under the matching oauth_state key, the same request produces the
same response and the same exchange decision. -/
theorem c10_callback_ignores_state_value (req : Request) (env : Env)
    (up : UpstreamTokenResp) (s v1 v2 : String) (store1 store2 : Store)
    (hstate : getQueryParam req "state" = some s)
    (h1 : kvGet store1 ("oauth_state_" ++ s) = some v1) (hv1 : ¬ v1 = "")
    (h2 : kvGet store2 ("oauth_state_" ++ s) = some v2) (hv2 : ¬ v2 = "") :
    (handleCallback req env store1 up).resp =
      (handleCallback req env store2 up).resp ∧
    (handleCallback req env store1 up).posted =
      (handleCallback req env store2 up).posted := by
  simp only [handleCallback]
  split
  · exact ⟨rfl, rfl⟩
  · split
    · exact ⟨rfl, rfl⟩
    · have e1 : optTruthy (kvGet store1
          ("oauth_state_" ++ (getQueryParam req "state").getD "")) = true := by
        simp [hstate, h1, optTruthy, strTruthy, hv1]
      have e2 : optTruthy (kvGet store2
          ("oauth_state_" ++ (getQueryParam req "state").getD "")) = true := by
        simp [hstate, h2, optTruthy, strTruthy, hv2]
      simp only [e1, e2, Bool.not_true]
      cases hres : (exchangeCodeForTokens ((getQueryParam req "code").getD "")
          req.origin env up).result with
      | error e => simp [hres]
      | ok d => simp [hres]

/-- Witness for C10: "pending" versus an arbitrary other non-empty marker. -/
theorem c10_callback_ignores_state_value_witness :
    (handleCallback ⟨"GET", "/callback", "https://w.example",
        [("code", "abc"), ("state", "xyz")], none⟩
      ⟨"cid", "secret", "k", "production"⟩
      [("oauth_state_xyz", ⟨"pending", some 600⟩)]
      ⟨true, "OK", "TOK"⟩).resp =
    (handleCallback ⟨"GET", "/callback", "https://w.example",
        [("code", "abc"), ("state", "xyz")], none⟩
      ⟨"cid", "secret", "k", "production"⟩
      [("oauth_state_xyz", ⟨"other-marker", none⟩)]
      ⟨true, "OK", "TOK"⟩).resp ∧
    (handleCallback ⟨"GET", "/callback", "https://w.example",
        [("code", "abc"), ("state", "xyz")], none⟩
      ⟨"cid", "secret", "k", "production"⟩
      [("oauth_state_xyz", ⟨"pending", some 600⟩)]
      ⟨true, "OK", "TOK"⟩).posted =
    (handleCallback ⟨"GET", "/callback", "https://w.example",
        [("code", "abc"), ("state", "xyz")], none⟩
      ⟨"cid", "secret", "k", "production"⟩
      [("oauth_state_xyz", ⟨"other-marker", none⟩)]
      ⟨true, "OK", "TOK"⟩).posted := by
  exact c10_callback_ignores_state_value _ _ _ "xyz" "pending" "other-marker"
    _ _ rfl rfl (by decide) rfl (by decide)


